import Mathlib

/-
Verification of the cart-price reconciliation subsystem and the addon CRUD
backend of the Shopify product add-ons app.

Shallow embedding conventions:
  - JS numbers carrying currency amounts are modelled as rationals (ℚ);
    quantities as integers (ℤ).
  - JS objects used as string-keyed maps (sessionStorage payload, the
    in-memory addon Map) are modelled as association lists in insertion
    order, which is exactly the iteration order of Object.entries / Map.
  - Fallible platform calls (fetch, sessionStorage.setItem, JSON.parse,
    DOM access) are modelled by explicit Option / Except inputs.
  - Absent JS object fields are modelled with Option (none = undefined).
-/

namespace ShopifyAddons

/-! ## Selection store (public/modules/addon-storage.js) -/

/-- One addon control state as held in window.productAddons on the product
page: fields selected, price, value, name (product-page.js). -/
structure AddonControl where
  name : String
  price : ℚ
  value : String
  selected : Bool
deriving DecidableEq, Repr

/-- One chosen addon as pushed into the stored selection by
storeProductAddons: fields name, price, value. -/
structure ChosenAddon where
  name : String
  price : ℚ
  value : String
deriving DecidableEq, Repr

/-- One entry of the sessionStorage productAddons object. storeProductAddons
writes addons, totalPrice and timestamp; other writers may also attach
variantId / productId fields, read by the cart matching code, so they are
kept as optional fields (none = field absent). -/
structure SelectionEntry where
  addons : List ChosenAddon
  totalPrice : ℚ
  timestamp : ℕ
  variantId : Option String
  productId : Option String
deriving DecidableEq, Repr

/-- The parsed sessionStorage productAddons object: productId keys to
selection entries, in insertion order. -/
abbrev Storage := List (String × SelectionEntry)

/-- Projection from a control to the stored chosen-addon shape
(addon-storage.js lines 18-22). -/
def chosenOf (a : AddonControl) : ChosenAddon :=
  ⟨a.name, a.price, a.value⟩

/-- The forEach accumulation loop of storeProductAddons (addon-storage.js
lines 16-25): pushes each selected addon and adds its price to the running
total. -/
def storeScanGo (controls : List AddonControl) (acc : List ChosenAddon × ℚ) :
    List ChosenAddon × ℚ :=
  controls.foldl
    (fun acc a =>
      if a.selected then (acc.1 ++ [chosenOf a], acc.2 + a.price) else acc)
    acc

/-- The selectedAddons / totalPrice pair computed by storeProductAddons. -/
def storeScan (controls : List AddonControl) : List ChosenAddon × ℚ :=
  storeScanGo controls ([], 0)

/-- JS object key assignment storage[productId] = entry: overwrite in place
when the key exists, append when new. -/
def setEntry : Storage → String → SelectionEntry → Storage
  | [], pid, e => [(pid, e)]
  | (k, v) :: rest, pid, e =>
    if k = pid then (pid, e) :: rest else (k, v) :: setEntry rest pid e

/-- JS object key read storage[productId] (none = undefined). -/
def lookupEntry (s : Storage) (pid : String) : Option SelectionEntry :=
  match s.find? (fun kv => kv.1 = pid) with
  | some kv => some kv.2
  | none => none

/-- storeProductAddons (addon-storage.js lines 9-41), success path: scans
the controls, then overwrites the entry for this product wholesale. -/
def storeProductAddons (storage : Storage) (productId : String)
    (controls : List AddonControl) (now : ℕ) : Storage :=
  let scan := storeScan controls
  setEntry storage productId ⟨scan.1, scan.2, now, none, none⟩

/-- The list of chosen addons the scan produces: the selected controls, in
order, projected to the stored shape. -/
def selectedChosen (controls : List AddonControl) : List ChosenAddon :=
  (controls.filter (fun a => a.selected)).map chosenOf

theorem storeScanGo_spec (controls : List AddonControl) :
    ∀ l t, storeScanGo controls (l, t) =
      (l ++ selectedChosen controls,
       t + ((selectedChosen controls).map (fun a => a.price)).sum) := by
  induction controls with
  | nil => intro l t; simp [storeScanGo, selectedChosen]
  | cons a rest ih =>
    intro l t
    by_cases h : a.selected
    · simp only [storeScanGo, List.foldl_cons] at *
      rw [if_pos h, ih]
      simp [selectedChosen, h, chosenOf, add_assoc]
    · simp only [storeScanGo, List.foldl_cons] at *
      rw [if_neg h, ih]
      simp [selectedChosen, h]

theorem storeScan_spec (controls : List AddonControl) :
    storeScan controls =
      (selectedChosen controls,
       ((selectedChosen controls).map (fun a => a.price)).sum) := by
  have h := storeScanGo_spec controls [] 0
  simpa [storeScan] using h

theorem lookupEntry_setEntry (s : Storage) (pid : String) (e : SelectionEntry) :
    lookupEntry (setEntry s pid e) pid = some e := by
  induction s with
  | nil => simp [setEntry, lookupEntry, List.find?]
  | cons kv rest ih =>
    by_cases h : kv.1 = pid
    · cases kv with
      | mk k v =>
        simp only [setEntry]
        rw [if_pos h]
        simp [lookupEntry, List.find?]
    · cases kv with
      | mk k v =>
        simp only [setEntry]
        rw [if_neg h]
        simp only [lookupEntry, List.find?] at *
        have hk : (decide (k = pid)) = false := by
          simpa using h
        simp only [hk]
        exact ih

/-- Claim C3: after any call to storeProductAddons, the stored entry for
that product is recomputed wholesale: its chosen addons are exactly the
controls marked selected, and its totalPrice equals the sum of their
prices. -/
theorem storeProductAddons_totalPrice_invariant (storage : Storage)
    (productId : String) (controls : List AddonControl) (now : ℕ) :
    lookupEntry (storeProductAddons storage productId controls now) productId =
      some ⟨selectedChosen controls,
            ((selectedChosen controls).map (fun a => a.price)).sum,
            now, none, none⟩ := by
  unfold storeProductAddons
  rw [storeScan_spec]
  exact lookupEntry_setEntry storage productId _

/-! ## Cart line matching (addon-storage.js and cart-page.js) -/

/-- Character-list test: needle occurs at the start of haystack. Models the
start-anchored step of JS String.prototype.includes. -/
def subAt : List Char → List Char → Bool
  | [], _ => true
  | _ :: _, [] => false
  | a :: as, b :: bs => a = b && subAt as bs

/-- Character-list test: needle occurs somewhere in haystack. -/
def hasSub (n : List Char) : List Char → Bool
  | [] => n.isEmpty
  | b :: bs => subAt n (b :: bs) || hasSub n bs

/-- JS hay.includes(needle). -/
def containsStr (hay needle : String) : Bool :=
  hasSub needle.data hay.data

/-- One addon counts as matched by matchAddonsByCartProperties iff the cart
item text contains its name or its value (addon-storage.js line 143). -/
def addonTextMatch (itemText : String) (a : ChosenAddon) : Bool :=
  containsStr itemText a.name || containsStr itemText a.value

/-- The per-addon match count of addon-storage.js lines 138-147. -/
def fuzzyMatchCount (itemText : String) (e : SelectionEntry) : ℕ :=
  (e.addons.filter (addonTextMatch itemText)).length

/-- The acceptance test of addon-storage.js line 150: matchCount greater
than 0 and matchCount at least 0.7 times the addon count (exact rational
comparison, written over ℕ as 10 * matchCount at least 7 * count). -/
def fuzzyEntryMatch (itemText : String) (e : SelectionEntry) : Bool :=
  decide (0 < fuzzyMatchCount itemText e ∧
    7 * e.addons.length ≤ 10 * fuzzyMatchCount itemText e)

/-- matchAddonsByCartProperties (addon-storage.js lines 131-160): first
stored entry passing the fuzzy test, returning its addons and totalPrice. -/
def matchAddonsByCartProperties (itemText : String) (storage : Storage) :
    Option (List ChosenAddon × ℚ) :=
  match storage.find? (fun kv => fuzzyEntryMatch itemText kv.2) with
  | some kv => some (kv.2.addons, kv.2.totalPrice)
  | none => none

/-- AddonConfig.HIDDEN_PRODUCT.PRODUCT_ID (the AddonConfig module shipped
with the storefront scripts, staged alongside page-detector.js): the
designated surrogate product id. -/
def HIDDEN_PRODUCT_ID : String := "12237829308756"

/-- AddonConfig.HIDDEN_PRODUCT.VARIANT_ID: the designated surrogate
variant id. -/
def HIDDEN_VARIANT_ID : String := "52557455032660"

/-- AddonConfig.HIDDEN_PRODUCT.PRICE: the surrogate unit price, 0.01. -/
def HIDDEN_PRODUCT_PRICE : ℚ := 1 / 100

/-- findAddonDataForCartItem (cart-page.js lines 471-497): skip the
surrogate line, then first entry matching by variantId, then first entry
matching by productId, else no match. This path never consults the fuzzy
text matcher. -/
def findAddonDataForCartItem (itemPid itemVid : String) (storage : Storage) :
    Option SelectionEntry :=
  if itemPid = HIDDEN_PRODUCT_ID ∨ itemVid = HIDDEN_VARIANT_ID then none
  else
    match storage.find? (fun kv => kv.2.variantId = some itemVid) with
    | some kv => some kv.2
    | none =>
      match storage.find? (fun kv => kv.2.productId = some itemPid) with
      | some kv => some kv.2
      | none => none

/-- Two-decimal price rendering used to state the claim's "formatted price
token" (for nonnegative amounts, as displayed in the cart). -/
def formatPriceToken (q : ℚ) : String :=
  let cents := (⌊q * 100 + 1 / 2⌋).toNat
  let units := cents / 100
  let rem := cents % 100
  toString units ++ "." ++ (if rem < 10 then "0" else "") ++ toString rem

/-- Modelled from the spec (claim C6 refinement): acceptance criterion as
the spec words it, namely at least 70 percent of the candidate selection's
addon names, values or prices occur in the line's rendered text, by string
containment on name, value, or formatted price token. Stated for
comparison against matchAddonsByCartProperties from the source. -/
def specFuzzyAccepts (itemText : String) (e : SelectionEntry) : Bool :=
  decide (7 * e.addons.length ≤ 10 *
    (e.addons.filter (fun a =>
      containsStr itemText a.name || containsStr itemText a.value ||
        containsStr itemText (formatPriceToken a.price))).length)

/-- A stored selection whose single addon has name Gift Wrap, value Yes and
price 5.00, used as the concrete input refuting claim C6. -/
def c6Entry : SelectionEntry :=
  ⟨[⟨"Gift Wrap", 5, "Yes"⟩], 5, 0, none, none⟩

/-- Cart line text that contains the formatted price token 5.00 but neither
the addon name nor its value. -/
def c6Text : String := "Deluxe Box 5.00 total"

/-- Claim C6 counterexample: on a line whose rendered text contains the
formatted price token of the only addon (so 100 percent of the claim's
name/value/price tokens occur, passing its 70 percent bar) but not the
addon name or value, the spec's acceptance criterion holds while the code's
matchAddonsByCartProperties reports no match: the source never consults
price tokens. -/
theorem fuzzyMatch_price_token_counterexample :
    specFuzzyAccepts c6Text c6Entry = true ∧
      matchAddonsByCartProperties c6Text [("p1", c6Entry)] = none := by
  constructor
  · have h : (⌊(5 : ℚ) * 100 + 1 / 2⌋) = 500 := by norm_num
    have hf : formatPriceToken (5 : ℚ) = "5.00" := by
      simp only [formatPriceToken, h]
      rfl
    simp only [specFuzzyAccepts, c6Entry, c6Text, List.filter_cons,
      List.filter_nil, hf]
    decide
  · rfl

/-- Claim C6 (amended): findAddonDataForCartItem resolves in fixed priority
order, first entry with equal variantId, else first entry with equal
productId, else no match, and never consults rendered text; the fuzzy
fallback lives on the separate matchAddonsByCartProperties path and
accepts some stored selection iff at least one of its addons and at least
70 percent of them have their name or their value contained in the line's
rendered text, price tokens playing no part. -/
theorem findMatching_priority_amended :
    (∀ itemPid itemVid (storage : Storage) kv,
       ¬(itemPid = HIDDEN_PRODUCT_ID ∨ itemVid = HIDDEN_VARIANT_ID) →
       storage.find? (fun x => x.2.variantId = some itemVid) = some kv →
       findAddonDataForCartItem itemPid itemVid storage = some kv.2)
    ∧ (∀ itemPid itemVid (storage : Storage) kv,
       ¬(itemPid = HIDDEN_PRODUCT_ID ∨ itemVid = HIDDEN_VARIANT_ID) →
       storage.find? (fun x => x.2.variantId = some itemVid) = none →
       storage.find? (fun x => x.2.productId = some itemPid) = some kv →
       findAddonDataForCartItem itemPid itemVid storage = some kv.2)
    ∧ (∀ itemPid itemVid (storage : Storage),
       storage.find? (fun x => x.2.variantId = some itemVid) = none →
       storage.find? (fun x => x.2.productId = some itemPid) = none →
       findAddonDataForCartItem itemPid itemVid storage = none)
    ∧ (∀ itemText (storage : Storage),
       (matchAddonsByCartProperties itemText storage).isSome = true ↔
         ∃ kv ∈ storage,
           0 < (kv.2.addons.filter (fun a =>
                  containsStr itemText a.name ||
                    containsStr itemText a.value)).length ∧
             7 * kv.2.addons.length ≤
               10 * (kv.2.addons.filter (fun a =>
                  containsStr itemText a.name ||
                    containsStr itemText a.value)).length) := by
  refine ⟨?_, ?_, ?_, ?_⟩
  · intro itemPid itemVid storage kv hhid hfind
    unfold findAddonDataForCartItem
    rw [if_neg hhid, hfind]
  · intro itemPid itemVid storage kv hhid hvar hprod
    unfold findAddonDataForCartItem
    rw [if_neg hhid, hvar, hprod]
  · intro itemPid itemVid storage hvar hprod
    unfold findAddonDataForCartItem
    by_cases hhid : itemPid = HIDDEN_PRODUCT_ID ∨ itemVid = HIDDEN_VARIANT_ID
    · rw [if_pos hhid]
    · rw [if_neg hhid, hvar, hprod]
  · intro itemText storage
    unfold matchAddonsByCartProperties
    constructor
    · intro h
      cases hfind : storage.find? (fun kv => fuzzyEntryMatch itemText kv.2) with
      | none => rw [hfind] at h; simp at h
      | some kv =>
        have hmem := List.mem_of_find?_eq_some hfind
        have hpred := List.find?_some hfind
        refine ⟨kv, hmem, ?_⟩
        simpa [fuzzyEntryMatch, fuzzyMatchCount, addonTextMatch] using hpred
    · rintro ⟨kv, hmem, hpos, hfrac⟩
      have hpred : fuzzyEntryMatch itemText kv.2 = true := by
        simp only [fuzzyEntryMatch, fuzzyMatchCount, addonTextMatch,
          decide_eq_true_eq]
        exact ⟨hpos, hfrac⟩
      cases hfind : storage.find? (fun kv => fuzzyEntryMatch itemText kv.2) with
      | none =>
        have := List.find?_eq_none.mp hfind kv hmem
        simp [hpred] at this
      | some kv2 => simp

/-- A stored selection carrying a variantId, used to exercise the highest
priority branch of the amended claim C6. -/
def c6wEntry : SelectionEntry := ⟨[], 0, 0, some "v9", none⟩

/-- Witness for the amended claim C6: on a storage with a variantId-bearing
entry, a cart line with that variant id resolves to it through the first
priority branch. -/
theorem findMatching_priority_amended_witness :
    findAddonDataForCartItem "p7" "v9" [("pX", c6wEntry)] = some c6wEntry :=
  findMatching_priority_amended.1 "p7" "v9" [("pX", c6wEntry)]
    ("pX", c6wEntry) (by decide) rfl

/-! ## Cart reconciler (public/modules/cart-page.js) -/

/-- One line of the cart returned by the cart read endpoint, with the
fields the reconciler consumes: product_id, variant_id (compared after
toString, so modelled as strings), quantity and the opaque line key. -/
structure CartItem where
  product_id : String
  variant_id : String
  quantity : ℤ
  key : String
deriving DecidableEq, Repr

/-- The fetched cart. -/
structure Cart where
  items : List CartItem
deriving DecidableEq, Repr

/-- Outcomes of the external calls a single sync pass can make: the cart
fetch (none models a network failure or non-ok response, as getCurrentCart
returns null on both), and the ok-ness of the add-line and quantity-update
responses. -/
structure SyncEnv where
  fetchedCart : Option Cart
  addOk : Bool
  updateOk : Bool
deriving DecidableEq, Repr

/-- A cart-mutation call issued by the reconciler: the POST to /cart/add.js
(addHiddenProduct) or to /cart/update.js (updateHiddenProductQuantity). -/
inductive CartAction where
  | addLine (variantId : String) (quantity : ℤ)
  | updateLine (lineKey : String) (quantity : ℤ)
deriving DecidableEq, Repr

/-- The quantity carried by a mutation call. -/
def actionQuantity : CartAction → ℤ
  | CartAction.addLine _ q => q
  | CartAction.updateLine _ q => q

/-- JS Math.round on a finite number: round half toward positive infinity,
which is floor of x plus one half. -/
def jsRound (x : ℚ) : ℤ := ⌊x + 1 / 2⌋

/-- The matching loop of syncCartWithAddons (cart-page.js lines 148-159):
accumulate totalAddonPrice over the cart lines that findAddonDataForCartItem
matches to a stored selection. -/
def neededTotal (items : List CartItem) (storage : Storage) : ℚ :=
  items.foldl
    (fun t it =>
      match findAddonDataForCartItem it.product_id it.variant_id storage with
      | some e => t + e.totalPrice
      | none => t)
    0

/-- The existing-hidden-item lookup of cart-page.js lines 169-172. -/
def findHiddenItem (items : List CartItem) : Option CartItem :=
  items.find? (fun it =>
    it.product_id = HIDDEN_PRODUCT_ID || it.variant_id = HIDDEN_VARIANT_ID)

/-- syncCartWithAddons (cart-page.js lines 116-194) as a pure function from
the external-call outcomes and the stored selections to the list of
cart-mutation calls issued and whether the processed marker was written
(markAsProcessed runs on an ok add response, an ok update response, or on
finding the surrogate quantity already correct; every other path leaves
the marker unwritten). -/
def syncCartWithAddons (env : SyncEnv) (storage : Storage) :
    List CartAction × Bool :=
  match env.fetchedCart with
  | none => ([], false)
  | some cart =>
    if storage.isEmpty then ([], false)
    else
      let totalAddonPrice := neededTotal cart.items storage
      if totalAddonPrice = 0 then ([], false)
      else
        let neededQuantity := jsRound (totalAddonPrice / HIDDEN_PRODUCT_PRICE)
        match findHiddenItem cart.items with
        | some item =>
          if item.quantity ≠ neededQuantity then
            ([CartAction.updateLine item.key neededQuantity], env.updateOk)
          else ([], true)
        | none =>
          ([CartAction.addLine HIDDEN_VARIANT_ID neededQuantity], env.addOk)

/-- Result of one init pass of the cart page handler. -/
structure InitResult where
  mutations : List CartAction
  markerAfter : Option ℕ
  redisplayedCached : Bool
deriving DecidableEq, Repr

/-- init (cart-page.js lines 21-44): if a processed marker exists and is
less than 5000 milliseconds old, skip the sync and only re-display the
derived price annotations; otherwise clear the marker and run the sync,
which rewrites the marker with the current time exactly when it reports
success. Timestamps are in milliseconds; the age test uses truncated ℕ
subtraction, which agrees with the JS comparison since a clock running
backwards also passes the under-5000 test. -/
def cartInit (marker : Option ℕ) (now : ℕ) (env : SyncEnv)
    (storage : Storage) : InitResult :=
  match marker with
  | some t =>
    if now - t < 5000 then ⟨[], some t, true⟩
    else
      let r := syncCartWithAddons env storage
      ⟨r.1, if r.2 then some now else none, false⟩
  | none =>
    let r := syncCartWithAddons env storage
    ⟨r.1, if r.2 then some now else none, false⟩

/-- Claim C1: every cart-mutation call the sync pass issues carries the
quantity round(neededTotal / surrogateUnitPrice) with the unit price fixed
at 0.01; on neededTotal 1.95 that quantity is exactly 195; and the rounding
mode at the .005 boundary is one fixed mode, round half up: for every k
the boundary total k cents plus half a cent rounds to k + 1. -/
theorem syncQuantity_rounding :
    (∀ env storage cart, env.fetchedCart = some cart →
      ∀ a ∈ (syncCartWithAddons env storage).1,
        actionQuantity a =
          jsRound (neededTotal cart.items storage / HIDDEN_PRODUCT_PRICE))
    ∧ jsRound ((39 / 20 : ℚ) / HIDDEN_PRODUCT_PRICE) = 195
    ∧ (∀ k : ℕ,
        jsRound (((k : ℚ) / 100 + 1 / 200) / HIDDEN_PRODUCT_PRICE) =
          (k : ℤ) + 1) := by
  refine ⟨?_, ?_, ?_⟩
  · intro env storage cart hc a ha
    unfold syncCartWithAddons at ha
    rw [hc] at ha
    cases hs : storage.isEmpty with
    | true => simp [hs] at ha
    | false =>
      simp only [hs, Bool.false_eq_true, if_false] at ha
      by_cases h0 : neededTotal cart.items storage = 0
      · simp [h0] at ha
      · simp only [h0, if_false] at ha
        cases hfind : findHiddenItem cart.items with
        | some item =>
          simp only [hfind] at ha
          by_cases hq : item.quantity ≠
              jsRound (neededTotal cart.items storage / HIDDEN_PRODUCT_PRICE)
          · rw [if_pos hq] at ha
            simp at ha
            subst ha
            rfl
          · rw [if_neg hq] at ha
            simp at ha
        | none =>
          simp only [hfind] at ha
          simp at ha
          subst ha
          rfl
  · norm_num [jsRound, HIDDEN_PRODUCT_PRICE]
  · intro k
    have h : ((k : ℚ) / 100 + 1 / 200) / HIDDEN_PRODUCT_PRICE + 1 / 2 =
        (k : ℚ) + 1 := by
      unfold HIDDEN_PRODUCT_PRICE
      ring
    unfold jsRound
    rw [h, show ((k : ℚ) + 1 = (((k : ℤ) + 1 : ℤ) : ℚ)) by push_cast; ring]
    exact Int.floor_intCast _

/-- Stored selection used by the claim C1 witness: one addon priced 1.95. -/
def c1Entry : SelectionEntry :=
  ⟨[⟨"Gift Wrap", 39 / 20, "selected"⟩], 39 / 20, 0, none, some "p1"⟩

/-- Storage for the claim C1 witness. -/
def c1Storage : Storage := [("p1", c1Entry)]

/-- Cart for the claim C1 witness: one matching line, no surrogate. -/
def c1Cart : Cart := ⟨[⟨"p1", "v1", 1, "k1"⟩]⟩

/-- Environment for the claim C1 witness: fetch succeeds, add succeeds. -/
def c1Env : SyncEnv := ⟨some c1Cart, true, true⟩

theorem c1_sync_eval :
    (syncCartWithAddons c1Env c1Storage).1 =
      [CartAction.addLine HIDDEN_VARIANT_ID
        (jsRound (neededTotal c1Cart.items c1Storage / HIDDEN_PRODUCT_PRICE))] := by
  have htot : neededTotal [CartItem.mk "p1" "v1" 1 "k1"] [("p1", c1Entry)] ≠ 0 := by
    simp [neededTotal, c1Entry, findAddonDataForCartItem,
      HIDDEN_PRODUCT_ID, HIDDEN_VARIANT_ID, List.find?]
  simp [syncCartWithAddons, c1Env, htot, findHiddenItem, c1Cart, c1Storage,
    HIDDEN_PRODUCT_ID, HIDDEN_VARIANT_ID, List.find?]

/-- Witness for claim C1: on the concrete 1.95 scenario the issued add-line
call carries exactly the rounded quantity. -/
theorem syncQuantity_rounding_witness :
    actionQuantity
        (CartAction.addLine HIDDEN_VARIANT_ID
          (jsRound (neededTotal c1Cart.items c1Storage / HIDDEN_PRODUCT_PRICE)))
      = jsRound (neededTotal c1Cart.items c1Storage / HIDDEN_PRODUCT_PRICE) :=
  syncQuantity_rounding.1 c1Env c1Storage c1Cart rfl _
    (by rw [c1_sync_eval]; exact List.mem_singleton.mpr rfl)

/-- Claim C2: if some sync pass completed successfully and wrote the
processed marker at time t, then an init pass started while the marker is
under 5000 milliseconds old issues no cart-mutation call at all, whatever
the current cart, environment or stored selections are; it only re-displays
the derived price annotations. -/
theorem cartInit_recent_idempotent (env1 : SyncEnv) (storage1 : Storage)
    (t now : ℕ) (env : SyncEnv) (storage : Storage)
    (_hsync : (syncCartWithAddons env1 storage1).2 = true)
    (hrecent : now - t < 5000) :
    (cartInit (some t) now env storage).mutations = [] ∧
      (cartInit (some t) now env storage).redisplayedCached = true := by
  have h : cartInit (some t) now env storage = ⟨[], some t, true⟩ := by
    simp only [cartInit]
    rw [if_pos hrecent]
  rw [h]
  exact ⟨rfl, rfl⟩

/-- Witness for claim C2: the concrete 1.95 scenario sync writes the marker,
and an init pass 1000 milliseconds later mutates nothing and only
re-displays. -/
theorem cartInit_recent_idempotent_witness :
    (cartInit (some 0) 1000 c1Env c1Storage).mutations = [] ∧
      (cartInit (some 0) 1000 c1Env c1Storage).redisplayedCached = true :=
  cartInit_recent_idempotent c1Env c1Storage 0 1000 c1Env c1Storage
    (by
      have htot : neededTotal [CartItem.mk "p1" "v1" 1 "k1"]
          [("p1", c1Entry)] ≠ 0 := by
        simp [neededTotal, c1Entry, findAddonDataForCartItem,
          HIDDEN_PRODUCT_ID, HIDDEN_VARIANT_ID, List.find?]
      simp [syncCartWithAddons, c1Env, htot, findHiddenItem, c1Cart,
        c1Storage, HIDDEN_PRODUCT_ID, HIDDEN_VARIANT_ID, List.find?])
    (by decide)

/-- Claim C4: whenever the matched addon total over the fetched cart is
zero, the sync pass issues no surrogate add-line call and no
quantity-update call. -/
theorem syncCart_zeroTotal_no_mutations (env : SyncEnv) (storage : Storage)
    (cart : Cart) (hc : env.fetchedCart = some cart)
    (h0 : neededTotal cart.items storage = 0) :
    (syncCartWithAddons env storage).1 = [] := by
  unfold syncCartWithAddons
  rw [hc]
  cases hs : storage.isEmpty with
  | true => simp [hs]
  | false => simp [hs, h0]

/-- Witness for claim C4: a cart whose single line matches no stored
selection yields a zero total and an empty mutation list. -/
theorem syncCart_zeroTotal_no_mutations_witness :
    (syncCartWithAddons
        ⟨some (Cart.mk [CartItem.mk "p2" "v2" 1 "k2"]), true, true⟩
        c1Storage).1 = [] :=
  syncCart_zeroTotal_no_mutations _ c1Storage
    (Cart.mk [CartItem.mk "p2" "v2" 1 "k2"]) rfl
    (by simp [neededTotal, c1Storage, c1Entry, findAddonDataForCartItem,
      HIDDEN_PRODUCT_ID, HIDDEN_VARIANT_ID, List.find?])

/-- The situation in which the sync pass finds the surrogate quantity
already correct (cart-page.js lines 176-183): the fetch succeeded, some
selections are stored, the matched total is nonzero, and the first
surrogate line of the cart already carries the rounded quantity. -/
def quantityAlreadyCorrect (env : SyncEnv) (storage : Storage) : Prop :=
  ∃ cart, env.fetchedCart = some cart ∧ storage.isEmpty = false ∧
    neededTotal cart.items storage ≠ 0 ∧
    ∃ item, findHiddenItem cart.items = some item ∧
      item.quantity =
        jsRound (neededTotal cart.items storage / HIDDEN_PRODUCT_PRICE)

/-- Claim C5: the processed marker is written iff a sync step succeeds:
if the cart fetch fails no marker is written; when a quantity-update call
is issued the marker is written iff that response is ok; when an add-line
call is issued the marker is written iff that response is ok; and when no
mutation call is issued at all, the marker is written iff the pass found
the surrogate quantity already correct. -/
theorem syncCart_marker_iff_success (env : SyncEnv) (storage : Storage) :
    (env.fetchedCart = none → (syncCartWithAddons env storage).2 = false)
    ∧ (∀ k q,
        (syncCartWithAddons env storage).1 = [CartAction.updateLine k q] →
        ((syncCartWithAddons env storage).2 = true ↔ env.updateOk = true))
    ∧ (∀ v q,
        (syncCartWithAddons env storage).1 = [CartAction.addLine v q] →
        ((syncCartWithAddons env storage).2 = true ↔ env.addOk = true))
    ∧ ((syncCartWithAddons env storage).1 = [] →
        ((syncCartWithAddons env storage).2 = true ↔
          quantityAlreadyCorrect env storage)) := by
  cases hc : env.fetchedCart with
  | none =>
    have he : syncCartWithAddons env storage = ([], false) := by
      unfold syncCartWithAddons
      rw [hc]
    refine ⟨fun _ => by rw [he], ?_, ?_, ?_⟩
    · intro k q h
      rw [he] at h
      simp at h
    · intro v q h
      rw [he] at h
      simp at h
    · intro _
      rw [he]
      constructor
      · intro h
        simp at h
      · rintro ⟨cart, hc', _⟩
        rw [hc] at hc'
        simp at hc'
  | some cart =>
    cases hs : storage.isEmpty with
    | true =>
      have he : syncCartWithAddons env storage = ([], false) := by
        unfold syncCartWithAddons
        rw [hc]
        simp [hs]
      refine ⟨fun h => by simp at h, ?_, ?_, ?_⟩
      · intro k q h
        rw [he] at h
        simp at h
      · intro v q h
        rw [he] at h
        simp at h
      · intro _
        rw [he]
        constructor
        · intro h
          simp at h
        · rintro ⟨cart', hc', hs', _⟩
          rw [hc] at hc'
          injection hc' with h''
          subst h''
          rw [hs] at hs'
          simp at hs'
    | false =>
      by_cases h0 : neededTotal cart.items storage = 0
      · have he : syncCartWithAddons env storage = ([], false) := by
          simp [syncCartWithAddons, hc, hs, h0]
        refine ⟨fun h => by simp at h, ?_, ?_, ?_⟩
        · intro k q h
          rw [he] at h
          simp at h
        · intro v q h
          rw [he] at h
          simp at h
        · intro _
          rw [he]
          constructor
          · intro h
            simp at h
          · rintro ⟨cart', hc', _, h0', _⟩
            rw [hc] at hc'
            injection hc' with h''
            subst h''
            exact absurd h0 h0'
      · cases hfind : findHiddenItem cart.items with
        | some item =>
          by_cases hq : item.quantity ≠
              jsRound (neededTotal cart.items storage / HIDDEN_PRODUCT_PRICE)
          · have he : syncCartWithAddons env storage =
                ([CartAction.updateLine item.key
                    (jsRound (neededTotal cart.items storage /
                      HIDDEN_PRODUCT_PRICE))],
                 env.updateOk) := by
              simp [syncCartWithAddons, hc, hs, h0, hfind, hq]
            refine ⟨fun h => by simp at h, ?_, ?_, ?_⟩
            · intro k q h
              rw [he]
            · intro v q h
              rw [he] at h
              simp at h
            · intro h
              rw [he] at h
              simp at h
          · have he : syncCartWithAddons env storage = ([], true) := by
              simp [syncCartWithAddons, hc, hs, h0, hfind, not_not.mp hq]
            refine ⟨fun h => by simp at h, ?_, ?_, ?_⟩
            · intro k q h
              rw [he] at h
              simp at h
            · intro v q h
              rw [he] at h
              simp at h
            · intro _
              rw [he]
              constructor
              · intro _
                exact ⟨cart, hc, hs, h0, item, hfind, not_not.mp hq⟩
              · intro _
                rfl
        | none =>
          have he : syncCartWithAddons env storage =
              ([CartAction.addLine HIDDEN_VARIANT_ID
                  (jsRound (neededTotal cart.items storage /
                    HIDDEN_PRODUCT_PRICE))],
               env.addOk) := by
            simp [syncCartWithAddons, hc, hs, h0, hfind]
          refine ⟨fun h => by simp at h, ?_, ?_, ?_⟩
          · intro k q h
            rw [he] at h
            simp at h
          · intro v q h
            rw [he]
          · intro h
            rw [he] at h
            simp at h

/-- Witness for claim C5: a failed cart fetch leaves the processed marker
unwritten. -/
theorem syncCart_marker_iff_success_witness :
    (syncCartWithAddons ⟨none, true, true⟩ c1Storage).2 = false :=
  (syncCart_marker_iff_success ⟨none, true, true⟩ c1Storage).1 rfl

/-! ## Addon catalog backend (memory-database.js and the /api/addons
handlers of the server entry point) -/

/-- The addon payload assembled by the POST /api/addons handler and stored
by createAddon. price is Option ℚ: none models the JS NaN produced by
parseFloat on a non-numeric string, which the code stores without
complaint. -/
structure AddonInput where
  productId : String
  shop : String
  name : String
  price : Option ℚ
  type : String
  required : Bool
  options : Option String
  active : Option Bool
deriving DecidableEq, Repr

/-- A stored addon record: the generated id, the spread input fields, and
the created_at timestamp (memory-database.js lines 26-30). -/
structure AddonRecord where
  id : ℕ
  data : AddonInput
  created_at : ℕ
deriving DecidableEq, Repr

/-- The in-memory database: the addons Map keyed by the concatenated string
productId-shop in insertion order, and the id counter. -/
structure MemDB where
  addons : List (String × List AddonRecord)
  addonCounter : ℕ
deriving DecidableEq, Repr

/-- The template-string map key of memory-database.js lines 32 and 43. -/
def addonKey (pid shop : String) : String := pid ++ "-" ++ shop

/-- Map write of createAddon: push onto the existing list for the key, or
start a new singleton list under a fresh key. -/
def pushRecord : List (String × List AddonRecord) → String → AddonRecord →
    List (String × List AddonRecord)
  | [], k, r => [(k, [r])]
  | (k0, rs) :: rest, k, r =>
    if k0 = k then (k0, rs ++ [r]) :: rest else (k0, rs) :: pushRecord rest k r

/-- createAddon (memory-database.js lines 25-40): assign the counter as id,
spread the input, stamp created_at, push under the productId-shop key and
bump the counter. -/
def createAddon (db : MemDB) (input : AddonInput) (now : ℕ) :
    AddonRecord × MemDB :=
  let record : AddonRecord := ⟨db.addonCounter, input, now⟩
  (record,
   ⟨pushRecord db.addons (addonKey input.productId input.shop) record,
    db.addonCounter + 1⟩)

/-- JS Map read with default: this.addons.get(key) or else the empty
list. -/
def mapGet (l : List (String × List AddonRecord)) (k : String) :
    List AddonRecord :=
  match l.find? (fun kv => kv.1 = k) with
  | some kv => kv.2
  | none => []

/-- getAddons (memory-database.js lines 42-47): read the key's list (empty
when absent) and keep the records whose active field is not false. -/
def getAddons (db : MemDB) (pid shop : String) : List AddonRecord :=
  (mapGet db.addons (addonKey pid shop)).filter
    (fun r => decide (r.data.active ≠ some false))

theorem mapGet_pushRecord_same (l : List (String × List AddonRecord))
    (k : String) (r : AddonRecord) :
    mapGet (pushRecord l k r) k = mapGet l k ++ [r] := by
  induction l with
  | nil => simp [pushRecord, mapGet, List.find?]
  | cons kv rest ih =>
    cases kv with
    | mk k0 rs =>
      by_cases h : k0 = k
      · subst h
        simp [pushRecord, mapGet, List.find?]
      · simp only [pushRecord, if_neg h]
        have hk : (decide (k0 = k)) = false := by simpa using h
        simp only [mapGet, List.find?, hk] at *
        exact ih

/-- Claim C7: create followed by list on the same productId and shop
returns the created record among the results, its fields exactly the input
fields apart from the generated id (the pre-bump counter) and the
timestamp; and every record list returns has not been soft-deleted
(active is never false). -/
theorem createAddon_getAddons_roundtrip (db : MemDB) (input : AddonInput)
    (now : ℕ) (hactive : input.active ≠ some false) :
    (createAddon db input now).1 ∈
        getAddons (createAddon db input now).2 input.productId input.shop
    ∧ (createAddon db input now).1.data = input
    ∧ (createAddon db input now).1.id = db.addonCounter
    ∧ ∀ r ∈ getAddons (createAddon db input now).2 input.productId
          input.shop, r.data.active ≠ some false := by
  refine ⟨?_, rfl, rfl, ?_⟩
  · unfold getAddons createAddon
    rw [mapGet_pushRecord_same]
    rw [List.mem_filter]
    constructor
    · simp
    · simpa using hactive
  · intro r hr
    unfold getAddons at hr
    rw [List.mem_filter] at hr
    simpa using hr.2

/-- Concrete input for the claim C7 witness. -/
def c7Input : AddonInput :=
  ⟨"p1", "shop1", "Gift Wrap", some 5, "checkbox", false, none, none⟩

/-- The empty in-memory database (fresh MemoryDatabase instance). -/
def emptyDB : MemDB := ⟨[], 1⟩

/-- Witness for claim C7: creating a concrete addon in the fresh database
and listing the same keys returns it with its fields intact. -/
theorem createAddon_getAddons_roundtrip_witness :
    (createAddon emptyDB c7Input 5).1 ∈
        getAddons (createAddon emptyDB c7Input 5).2 "p1" "shop1"
    ∧ (createAddon emptyDB c7Input 5).1.data = c7Input :=
  ⟨(createAddon_getAddons_roundtrip emptyDB c7Input 5 (by simp [c7Input])).1,
   (createAddon_getAddons_roundtrip emptyDB c7Input 5 (by simp [c7Input])).2.1⟩

/-- Digit accumulator for decimal strings. -/
def natOfDigits (cs : List Char) : ℕ :=
  cs.foldl (fun n c => 10 * n + (c.toNat - 48)) 0

/-- JS parseFloat restricted to plain decimal notation: an optional minus
sign, then digits with an optional fractional part; none models NaN (no
leading digits at all). Trailing junk is ignored as parseFloat does. -/
def parseFloatQ (s : String) : Option ℚ :=
  let cs := s.data
  let neg : Bool := cs.head? = some (Char.ofNat 45)
  let cs2 := if neg then cs.tail else cs
  let intDigits := cs2.takeWhile Char.isDigit
  let rest := cs2.dropWhile Char.isDigit
  let fracDigits :=
    if rest.head? = some (Char.ofNat 46) then rest.tail.takeWhile Char.isDigit
    else []
  if intDigits.isEmpty ∧ fracDigits.isEmpty then none
  else
    let q : ℚ := (natOfDigits intDigits : ℚ) +
      (natOfDigits fracDigits : ℚ) / ((10 : ℚ) ^ fracDigits.length)
    some (if neg then -q else q)

/-- The JSON body of POST /api/addons as the handler destructures it:
each field may be absent. -/
structure AddonRequestBody where
  productId : Option String
  name : Option String
  price : Option String
  type : Option String
  required : Option Bool
  options : Option String
  shop : Option String
deriving DecidableEq, Repr

/-- JS falsiness of an optional string: undefined, null or empty. -/
def strFalsy : Option String → Bool
  | none => true
  | some s => s.isEmpty

/-- Outcome of the POST /api/addons handler: a 400 with an error message,
or a 200 carrying the created record and the new database state. -/
inductive PostResult where
  | badRequest (msg : String)
  | created (r : AddonRecord) (db : MemDB)
deriving DecidableEq, Repr

/-- The addon payload the handler passes to createAddon when validation
passes (the unnamed server entry, lines 510-518): parseFloat on price,
required defaulted to false, options defaulted to null, shop defaulted to
the literal default. -/
def inputOfBody (body : AddonRequestBody) : AddonInput :=
  { productId := body.productId.getD ""
    shop := match body.shop with
      | some s => if s.isEmpty then "default" else s
      | none => "default"
    name := body.name.getD ""
    price := parseFloatQ (body.price.getD "")
    type := body.type.getD ""
    required := body.required.getD false
    options := body.options
    active := none }

/-- The POST /api/addons handler of the unnamed server entry (lines
478-526): reject with 400 when productId, name or type is falsy or price
is null/undefined, otherwise create the record. No check constrains the
parsed price to be numeric or non-negative. -/
def postAddonsHandler (db : MemDB) (body : AddonRequestBody) (now : ℕ) :
    PostResult :=
  if strFalsy body.productId then PostResult.badRequest "Product ID is required"
  else if strFalsy body.name then
    PostResult.badRequest "Add-on name is required"
  else if body.price = none then PostResult.badRequest "Price is required"
  else if strFalsy body.type then
    PostResult.badRequest "Add-on type is required"
  else
    let res := createAddon db (inputOfBody body) now
    PostResult.created res.1 res.2

/-- Whether the handler rejected the request with status 400. -/
def isBadRequest : PostResult → Bool
  | PostResult.badRequest _ => true
  | PostResult.created _ _ => false

/-- Request carrying a negative price with all required fields present,
refuting claim C8. -/
def c8Body : AddonRequestBody :=
  ⟨some "p1", some "Gift Wrap", some "-5", some "checkbox", none, none, none⟩

/-- Claim C8 counterexample: a request whose basePrice is the negative
number -5 is not rejected: the handler creates the record even though the
claim requires a 400 whenever basePrice is negative. -/
theorem postAddons_negative_price_counterexample :
    isBadRequest (postAddonsHandler emptyDB c8Body 0) = false ∧
      parseFloatQ "-5" = some (-5 : ℚ) ∧ ((-5 : ℚ) < 0) := by
  refine ⟨rfl, ?_, by norm_num⟩
  simp [parseFloatQ, natOfDigits]

/-- Claim C8 (amended): the handler validates presence only: it responds
400 exactly when productId, name or type is missing or empty or price is
absent; any present price string, negative or non-numeric, is accepted,
parsed with parseFloat, and the record is created with the next counter
id. -/
theorem postAddons_presence_validation (db : MemDB)
    (body : AddonRequestBody) (now : ℕ) :
    ((∃ msg, postAddonsHandler db body now = PostResult.badRequest msg) ↔
      strFalsy body.productId = true ∨ strFalsy body.name = true ∨
        body.price = none ∨ strFalsy body.type = true)
    ∧ (strFalsy body.productId = false → strFalsy body.name = false →
        body.price ≠ none → strFalsy body.type = false →
        postAddonsHandler db body now =
          PostResult.created
            ⟨db.addonCounter, inputOfBody body, now⟩
            (createAddon db (inputOfBody body) now).2) := by
  constructor
  · constructor
    · intro ⟨msg, hmsg⟩
      by_contra hall
      push_neg at hall
      obtain ⟨h1, h2, h3, h4⟩ := hall
      have h1' : strFalsy body.productId = false := by
        cases hb : strFalsy body.productId
        · rfl
        · exact absurd hb h1
      have h2' : strFalsy body.name = false := by
        cases hb : strFalsy body.name
        · rfl
        · exact absurd hb h2
      have h4' : strFalsy body.type = false := by
        cases hb : strFalsy body.type
        · rfl
        · exact absurd hb h4
      unfold postAddonsHandler at hmsg
      rw [h1', h2', h4'] at hmsg
      rw [if_neg h3] at hmsg
      simp at hmsg
    · intro h
      unfold postAddonsHandler
      rcases h with h | h | h | h
      · rw [h]
        exact ⟨"Product ID is required", by simp⟩
      · by_cases h1 : strFalsy body.productId
        · rw [if_pos h1]
          exact ⟨"Product ID is required", rfl⟩
        · rw [if_neg h1, h]
          exact ⟨"Add-on name is required", by simp⟩
      · by_cases h1 : strFalsy body.productId
        · rw [if_pos h1]
          exact ⟨"Product ID is required", rfl⟩
        · rw [if_neg h1]
          by_cases h2 : strFalsy body.name
          · rw [if_pos h2]
            exact ⟨"Add-on name is required", rfl⟩
          · rw [if_neg h2, if_pos h]
            exact ⟨"Price is required", rfl⟩
      · by_cases h1 : strFalsy body.productId
        · rw [if_pos h1]
          exact ⟨"Product ID is required", rfl⟩
        · rw [if_neg h1]
          by_cases h2 : strFalsy body.name
          · rw [if_pos h2]
            exact ⟨"Add-on name is required", rfl⟩
          · rw [if_neg h2]
            by_cases h3 : body.price = none
            · rw [if_pos h3]
              exact ⟨"Price is required", rfl⟩
            · rw [if_neg h3, h]
              exact ⟨"Add-on type is required", by simp⟩
  · intro h1 h2 h3 h4
    unfold postAddonsHandler
    rw [h1, h2, h4, if_neg h3]
    simp [createAddon]

/-- Witness for the amended claim C8: a fully populated request (even with
a negative price) is created with id 1 in the fresh database. -/
theorem postAddons_presence_validation_witness :
    postAddonsHandler emptyDB c8Body 0 =
      PostResult.created ⟨1, inputOfBody c8Body, 0⟩
        (createAddon emptyDB (inputOfBody c8Body) 0).2 :=
  (postAddons_presence_validation emptyDB c8Body 0).2 rfl rfl
    (by simp [c8Body]) rfl

/-- A partial update body for PUT /api/addons/:id: present fields replace
the stored ones by object spread (memory-database.js line 54). Fields
whose stored type is already optional patch with a doubled Option. -/
structure AddonPatch where
  productId : Option String
  shop : Option String
  name : Option String
  price : Option (Option ℚ)
  type : Option String
  required : Option Bool
  options : Option (Option String)
  active : Option (Option Bool)
deriving DecidableEq, Repr

/-- The object spread of the stored record's data with the patch. -/
def applyPatch (d : AddonInput) (p : AddonPatch) : AddonInput :=
  { productId := p.productId.getD d.productId
    shop := p.shop.getD d.shop
    name := p.name.getD d.name
    price := p.price.getD d.price
    type := p.type.getD d.type
    required := p.required.getD d.required
    options := p.options.getD d.options
    active := p.active.getD d.active }

/-- The inner loop of updateAddon over one key's record list: replace the
first record with the given id by its patched form and return it. -/
def updateAddonInList (rs : List AddonRecord) (id : ℕ) (p : AddonPatch) :
    Option (AddonRecord × List AddonRecord) :=
  match rs with
  | [] => none
  | r :: rest =>
    if r.id = id then
      some (⟨r.id, applyPatch r.data p, r.created_at⟩,
        ⟨r.id, applyPatch r.data p, r.created_at⟩ :: rest)
    else
      match updateAddonInList rest id p with
      | some (u, rest2) => some (u, r :: rest2)
      | none => none

/-- The outer loop of updateAddon over the Map entries in insertion
order. -/
def updateAddonGo (l : List (String × List AddonRecord)) (id : ℕ)
    (p : AddonPatch) :
    Option (AddonRecord × List (String × List AddonRecord)) :=
  match l with
  | [] => none
  | (k, rs) :: rest =>
    match updateAddonInList rs id p with
    | some (u, rs2) => some (u, (k, rs2) :: rest)
    | none =>
      match updateAddonGo rest id p with
      | some (u, rest2) => some (u, (k, rs) :: rest2)
      | none => none

/-- updateAddon (memory-database.js lines 49-60): patch the first record
with the given id anywhere in the Map and return it, or throw the error
Addon not found. -/
def updateAddon (db : MemDB) (id : ℕ) (p : AddonPatch) :
    Except String (AddonRecord × MemDB) :=
  match updateAddonGo db.addons id p with
  | some (u, addons2) => Except.ok (u, ⟨addons2, db.addonCounter⟩)
  | none => Except.error "Addon not found"

/-- The PUT /api/addons/:id handler (server.js lines 266-274): respond 200
with the updated record, or catch any thrown error and respond 500. The
result is the status code, the response record if any, and the database
state after the call. -/
def putAddonHandler (db : MemDB) (id : ℕ) (p : AddonPatch) :
    ℕ × Option AddonRecord × MemDB :=
  match updateAddon db id p with
  | Except.ok (r, db2) => (200, some r, db2)
  | Except.error _ => (500, none, db)

/-- The first stored record with the given id, in the same traversal order
updateAddon uses. -/
def findAddonRecord (db : MemDB) (id : ℕ) : Option AddonRecord :=
  ((db.addons.map Prod.snd).flatten).find? (fun r => r.id = id)

/-- The all-absent patch. -/
def emptyPatch : AddonPatch := ⟨none, none, none, none, none, none, none, none⟩

/-- Claim C9 counterexample: updating an id absent from the store does fail
with the Addon not found error, but the HTTP handler surfaces it as status
500, not 404 as the claim states. -/
theorem putAddon_unknown_id_counterexample :
    (putAddonHandler emptyDB 1 emptyPatch).1 = 500 ∧ (500 : ℕ) ≠ 404 ∧
      updateAddon emptyDB 1 emptyPatch = Except.error "Addon not found" := by
  refine ⟨rfl, by decide, rfl⟩

theorem updateAddonInList_none (rs : List AddonRecord) (id : ℕ)
    (p : AddonPatch) (h : rs.find? (fun r => r.id = id) = none) :
    updateAddonInList rs id p = none := by
  induction rs with
  | nil => rfl
  | cons r rest ih =>
    simp only [List.find?] at h
    by_cases hid : r.id = id
    · simp [hid] at h
    · have hd : (decide (r.id = id)) = false := by simpa using hid
      rw [hd] at h
      simp only [updateAddonInList, if_neg hid, ih h]

theorem updateAddonInList_some (rs : List AddonRecord) (id : ℕ)
    (p : AddonPatch) (r : AddonRecord)
    (h : rs.find? (fun r => r.id = id) = some r) :
    ∃ rs2, updateAddonInList rs id p =
      some (⟨r.id, applyPatch r.data p, r.created_at⟩, rs2) := by
  induction rs with
  | nil => simp [List.find?] at h
  | cons r0 rest ih =>
    simp only [List.find?] at h
    by_cases hid : r0.id = id
    · have hd : (decide (r0.id = id)) = true := by simpa using hid
      rw [hd] at h
      injection h with h'
      subst h'
      refine ⟨⟨r0.id, applyPatch r0.data p, r0.created_at⟩ :: rest, ?_⟩
      simp only [updateAddonInList, if_pos hid]
    · have hd : (decide (r0.id = id)) = false := by simpa using hid
      rw [hd] at h
      obtain ⟨rs2, hrs2⟩ := ih h
      refine ⟨r0 :: rs2, ?_⟩
      simp only [updateAddonInList, if_neg hid, hrs2]

theorem updateAddonGo_none (l : List (String × List AddonRecord)) (id : ℕ)
    (p : AddonPatch)
    (h : ((l.map Prod.snd).flatten).find? (fun r => r.id = id) = none) :
    updateAddonGo l id p = none := by
  induction l with
  | nil => rfl
  | cons kv rest ih =>
    cases kv with
    | mk k rs =>
      simp only [List.map_cons, List.flatten_cons, List.find?_append] at h
      cases hrs : rs.find? (fun r => r.id = id) with
      | some r0 => rw [hrs] at h; simp at h
      | none =>
        rw [hrs] at h
        simp only [Option.none_or] at h
        simp only [updateAddonGo, updateAddonInList_none rs id p hrs, ih h]

theorem updateAddonGo_some (l : List (String × List AddonRecord)) (id : ℕ)
    (p : AddonPatch) (r : AddonRecord)
    (h : ((l.map Prod.snd).flatten).find? (fun r => r.id = id) = some r) :
    ∃ l2, updateAddonGo l id p =
      some (⟨r.id, applyPatch r.data p, r.created_at⟩, l2) := by
  induction l with
  | nil => simp [List.find?] at h
  | cons kv rest ih =>
    cases kv with
    | mk k rs =>
      simp only [List.map_cons, List.flatten_cons, List.find?_append] at h
      cases hrs : rs.find? (fun r => r.id = id) with
      | some r0 =>
        rw [hrs] at h
        simp only [Option.or_some] at h
        injection h with h'
        subst h'
        obtain ⟨rs2, hrs2⟩ := updateAddonInList_some rs id p r0 hrs
        exact ⟨(k, rs2) :: rest, by simp [updateAddonGo, hrs2]⟩
      | none =>
        rw [hrs] at h
        simp only [Option.none_or] at h
        obtain ⟨l2, hl2⟩ := ih h
        refine ⟨(k, rs) :: l2, ?_⟩
        simp only [updateAddonGo, updateAddonInList_none rs id p hrs, hl2]

/-- Claim C9 (amended): for an id absent from the store, updateAddon fails
with the Addon not found error and the PUT handler surfaces it as status
500 (not 404), leaving the database unchanged; for a present id it
performs the partial field merge on the first record carrying it and
responds 200 with the updated record. -/
theorem updateAddon_merge_amended (db : MemDB) (id : ℕ) (p : AddonPatch) :
    (findAddonRecord db id = none →
      putAddonHandler db id p = (500, none, db))
    ∧ (∀ r, findAddonRecord db id = some r →
        (putAddonHandler db id p).1 = 200 ∧
          (putAddonHandler db id p).2.1 =
            some ⟨r.id, applyPatch r.data p, r.created_at⟩) := by
  constructor
  · intro h
    unfold putAddonHandler updateAddon
    rw [updateAddonGo_none db.addons id p h]
  · intro r h
    obtain ⟨l2, hl2⟩ := updateAddonGo_some db.addons id p r h
    unfold putAddonHandler updateAddon
    rw [hl2]
    exact ⟨rfl, rfl⟩

/-- Witness for the amended claim C9: in a store holding exactly the
record created by the claim C7 witness, updating that record's id with a
name patch responds 200 with the merged record. -/
theorem updateAddon_merge_amended_witness :
    (putAddonHandler (createAddon emptyDB c7Input 5).2 1
        ⟨none, none, some "Ribbon", none, none, none, none, none⟩).1 = 200 :=
  ((updateAddon_merge_amended (createAddon emptyDB c7Input 5).2 1
      ⟨none, none, some "Ribbon", none, none, none, none, none⟩).2
    (createAddon emptyDB c7Input 5).1 (by rfl)).1

/-! ## Error handling of the storage wrapper (addon-storage.js) -/

/-- getStorage (addon-storage.js lines 163-171) over an abstract platform
JSON.parse, given as a function returning none when parsing throws or does
not yield a usable object: a null or empty stored value yields the empty
object, a parse failure is caught and yields the empty object, otherwise
the parsed storage. -/
def getStorageOf (jsonParse : String → Option Storage)
    (raw : Option String) : Storage :=
  match raw with
  | none => []
  | some s => if s.isEmpty then [] else (jsonParse s).getD []

/-- Whether the platform sessionStorage.setItem call throws (quota or
disabled storage); the only failure source inside the try block of
storeProductAddons. -/
structure BrowserEnv where
  setItemThrows : Bool
deriving DecidableEq, Repr

/-- storeProductAddons with its try/catch (addon-storage.js lines 9-41):
on an exception the catch returns null and the stored state is unchanged;
otherwise it returns the scanned pair and writes the new entry. The second
component is the resulting stored state in parsed form. -/
def storeProductAddonsOp (jsonParse : String → Option Storage)
    (env : BrowserEnv) (raw : Option String) (productId : String)
    (controls : List AddonControl) (now : ℕ) :
    Option (List ChosenAddon × ℚ) × Storage :=
  let storage := getStorageOf jsonParse raw
  if env.setItemThrows then (none, storage)
  else
    let scan := storeScan controls
    (some (scan.1, scan.2),
     setEntry storage productId ⟨scan.1, scan.2, now, none, none⟩)

/-- getProductAddons (addon-storage.js lines 44-60): returns the stored
entry or null; its try/catch never fires since getStorage already
catches. -/
def getProductAddonsOp (jsonParse : String → Option Storage)
    (raw : Option String) (productId : String) : Option SelectionEntry :=
  lookupEntry (getStorageOf jsonParse raw) productId

/-- A cart item as the DOM hands it to getCartAddons: the outcome of the
product-id extraction (Except models a throwing DOM access, the only
uncaught failure source inside the try block) and the item's rendered
text. -/
structure DomCartItem where
  extracted : Except Unit (Option String)
  text : String

/-- The per-item body of getCartAddons (addon-storage.js lines 68-91): a
truthy extracted product id with a stored entry wins, otherwise the fuzzy
property matcher. -/
def cartAddonFor (storage : Storage) (pid? : Option String) (text : String) :
    Option (List ChosenAddon × ℚ) :=
  match pid? with
  | some pid =>
    match lookupEntry storage pid with
    | some e => some (e.addons, e.totalPrice)
    | none => matchAddonsByCartProperties text storage
  | none => matchAddonsByCartProperties text storage

/-- The forEach loop of getCartAddons inside the try block: a throwing DOM
extraction aborts the whole loop exceptionally. -/
def getCartAddonsGo (storage : Storage) :
    List DomCartItem → Except Unit (List (List ChosenAddon × ℚ))
  | [] => Except.ok []
  | it :: rest =>
    match it.extracted with
    | Except.error e => Except.error e
    | Except.ok pid? =>
      match getCartAddonsGo storage rest with
      | Except.error e => Except.error e
      | Except.ok acc =>
        Except.ok
          ((match cartAddonFor storage pid? it.text with
            | some m => [m]
            | none => []) ++ acc)

/-- getCartAddons with its catch-all (addon-storage.js lines 63-99): any
internal error yields the empty list. -/
def getCartAddonsOp (jsonParse : String → Option Storage)
    (raw : Option String) (items : List DomCartItem) :
    List (List ChosenAddon × ℚ) :=
  match getCartAddonsGo (getStorageOf jsonParse raw) items with
  | Except.ok l => l
  | Except.error _ => []

theorem getCartAddonsGo_error (storage : Storage) (items : List DomCartItem)
    (it : DomCartItem) (hmem : it ∈ items)
    (herr : it.extracted = Except.error ()) :
    getCartAddonsGo storage items = Except.error () := by
  induction items with
  | nil => simp at hmem
  | cons it0 rest ih =>
    rcases List.mem_cons.mp hmem with h | h
    · subst h
      simp only [getCartAddonsGo, herr]
    · cases hex : it0.extracted with
      | error e => simp only [getCartAddonsGo, hex]
      | ok pid? =>
        simp only [getCartAddonsGo, hex, ih h]

/-- Claim C10: the public storage operations are total and swallow their
internal failures: an absent, empty or unparseable sessionStorage payload
makes getStorage return the empty object; a throwing setItem makes
storeProductAddons return null and leave the stored state unchanged; and a
throwing DOM access inside getCartAddons makes it return the empty list. -/
theorem addonStorage_total_error_handling :
    (∀ (jsonParse : String → Option Storage) raw,
      (raw = none ∨ raw = some "" ∨ ∀ s, raw = some s → jsonParse s = none) →
      getStorageOf jsonParse raw = [])
    ∧ (∀ (jsonParse : String → Option Storage) env raw productId controls
        now, env.setItemThrows = true →
        (storeProductAddonsOp jsonParse env raw productId controls now).1 =
            none ∧
          (storeProductAddonsOp jsonParse env raw productId controls
              now).2 = getStorageOf jsonParse raw)
    ∧ (∀ (jsonParse : String → Option Storage) raw items it, it ∈ items →
        it.extracted = Except.error () →
        getCartAddonsOp jsonParse raw items = []) := by
  refine ⟨?_, ?_, ?_⟩
  · intro jsonParse raw h
    rcases h with h | h | h
    · subst h; rfl
    · subst h; rfl
    · cases raw with
      | none => rfl
      | some s =>
        simp only [getStorageOf]
        by_cases hs : s.isEmpty
        · rw [if_pos hs]
        · rw [if_neg hs, h s rfl]
          rfl
  · intro jsonParse env raw productId controls now h
    unfold storeProductAddonsOp
    rw [if_pos h]
    exact ⟨rfl, rfl⟩
  · intro jsonParse raw items it hmem herr
    unfold getCartAddonsOp
    rw [getCartAddonsGo_error _ items it hmem herr]

/-- Witness for claim C10: an unparseable payload yields the empty object
(instantiating the first conjunct at a parser rejecting everything). -/
theorem addonStorage_total_error_handling_witness :
    getStorageOf (fun _ => none) (some "not json") = [] :=
  addonStorage_total_error_handling.1 (fun _ => none) (some "not json")
    (Or.inr (Or.inr (fun _ _ => rfl)))

end ShopifyAddons
